import Mathlib

/-!
Shallow embedding of the cold-outreach dashboard client (`src/App.jsx`).

The component keeps form state (workspace, prospect, generator input,
campaign under construction) and talks to a backend over a small
`get`/`post` wrapper. We embed the pure state transitions of each handler
as Lean functions, model HTTP responses as records carrying an HTTP
status code, the raw response text and the decoded JSON payload, and
prove the spec's testable properties about them.
-/

namespace ColdOutreach

/-- One campaign sequence step: `{ day_offset, subject, body }`. -/
structure Step where
  day_offset : Int
  subject : String
  body : String
  deriving DecidableEq, Repr

/-- The campaign form state: `{ name, workspace_id, sequence }`. -/
structure Campaign where
  name : String
  workspace_id : String
  sequence : List Step
  deriving DecidableEq, Repr

/-- Initial campaign state (line 97):
`{ name: '', workspace_id: '', sequence: [ { day_offset: 0, subject: '', body: '' } ]}`. -/
def initialCampaign : Campaign :=
  { name := "", workspace_id := "", sequence := [{ day_offset := 0, subject := "", body := "" }] }

/-- `addStep` (lines 101-103): appends a step whose `day_offset` is
`(c.sequence.at(-1)?.day_offset ?? 0) + 2`; `at(-1)` is the last element,
absent on an empty array. -/
def addStep (c : Campaign) : Campaign :=
  { c with
    sequence := c.sequence ++
      [{ day_offset := ((c.sequence.getLast?).map Step.day_offset).getD 0 + 2
         subject := "", body := "" }] }

/-- `removeStep(idx)` (lines 104-106): `sequence.filter((_, i) => i !== idx)`.
JavaScript hands the callback each element with its position; we embed that
as a filter over the enumerated list. -/
def removeStep (idx : Int) (c : Campaign) : Campaign :=
  { c with
    sequence := (c.sequence.enum.filter (fun p => ((p.1 : Int) != idx))).map Prod.snd }

example : (addStep initialCampaign).sequence =
    [{ day_offset := 0, subject := "", body := "" },
     { day_offset := 2, subject := "", body := "" }] := by decide

example : (addStep { initialCampaign with sequence := [] }).sequence =
    [{ day_offset := 2, subject := "", body := "" }] := by decide

example : (removeStep 0 initialCampaign).sequence = [] := by decide

example : (removeStep 1 initialCampaign).sequence = initialCampaign.sequence := by decide

example : (removeStep (-1) initialCampaign).sequence = initialCampaign.sequence := by decide

/-- An HTTP response as the fetch wrapper sees it: the numeric status
code, the raw response text (`r.text()`), and the decoded JSON payload
(`r.json()`), abstracted over its shape `α`. -/
structure Response (α : Type) where
  status : Nat
  text : String
  payload : α
  deriving DecidableEq, Repr

/-- `r.ok` in the fetch API: the status is in the range 200-299. -/
def isOk (status : Nat) : Bool := decide (200 ≤ status) && decide (status < 300)

/-- `get(path)` (lines 7-11): on a non-ok response it throws
`` `GET ${path} failed: ${r.status}` ``; otherwise it returns the payload. -/
def get {α : Type} (path : String) (r : Response α) : Except String α :=
  if isOk r.status then Except.ok r.payload
  else Except.error ("GET " ++ path ++ " failed: " ++ toString r.status)

set_option linter.unusedVariables false in
/-- `post(path, body)` (lines 12-23): on a non-ok response it throws
`` `POST ${path} failed: ${r.status} ${msg}` `` where `msg` is the response
text; otherwise it returns the payload. -/
def post {α β : Type} (path : String) (body : β) (r : Response α) : Except String α :=
  if isOk r.status then Except.ok r.payload
  else Except.error ("POST " ++ path ++ " failed: " ++ toString r.status ++ " " ++ r.text)

/-- JavaScript `a || b` for an optional string `a`: the falsy values (an
absent value, the empty string) select `b`. -/
def jsOr (a : Option String) (b : String) : String :=
  match a with
  | some v => if v = "" then b else v
  | none => b

/-- `baseUrl` (line 4): `import.meta.env.VITE_BACKEND_URL || 'http://localhost:8000'`,
with the environment variable modelled as an optional string. -/
def baseUrl (env : Option String) : String := jsOr env "http://localhost:8000"

/-- Workspace form state: `{ name, owner_email }`. -/
structure Workspace where
  name : String
  owner_email : String
  deriving DecidableEq, Repr

/-- Prospect form state. -/
structure Prospect where
  email : String
  first_name : String
  last_name : String
  company : String
  title : String
  deriving DecidableEq, Repr

/-- Generator form state: `{ product, audience, tone, call_to_action }`. -/
structure GenRequest where
  product : String
  audience : String
  tone : String
  call_to_action : String
  deriving DecidableEq, Repr

/-- `/generate` response payload: `{ subject, body }`. -/
structure GenPreview where
  subject : String
  body : String
  deriving DecidableEq, Repr

/-- A created-entity response payload carrying an `id`. -/
structure CreatedResp where
  id : String
  deriving DecidableEq, Repr

/-- The page-level `App` state the handlers read and write. -/
structure AppState where
  status : String
  ws : Workspace
  prospect : Prospect
  gen : GenRequest
  preview : Option GenPreview
  loadingGen : Bool
  campaign : Campaign
  campaigns : List Campaign
  loadingCampaigns : Bool
  deriving DecidableEq, Repr

/-- The `useState` initial values (lines 85-99). -/
def initialState : AppState :=
  { status := ""
    ws := { name := "", owner_email := "" }
    prospect := { email := "", first_name := "", last_name := "", company := "", title := "" }
    gen := { product := "", audience := "", tone := "friendly", call_to_action := "Book a quick call?" }
    preview := none
    loadingGen := false
    campaign := initialCampaign
    campaigns := []
    loadingCampaigns := false }

/-- `loadCampaigns` (lines 108-118), net state once the awaited GET
resolves with response `r`: on success the campaign list is replaced; on
failure the status is set to the thrown message; either way the loading
flag ends false. -/
def loadCampaigns (r : Response (List Campaign)) (s : AppState) : AppState :=
  match get "/campaigns" r with
  | Except.ok items => { s with campaigns := items, loadingCampaigns := false }
  | Except.error e => { s with status := e, loadingCampaigns := false }

/-- `submitWorkspace` (lines 125-132), net state once the awaited POST of
the workspace form resolves with response `r`: on success the status
reports the new id and the campaign's `workspace_id` is set to it; on
failure the status is set to the thrown message. -/
def submitWorkspace (r : Response CreatedResp) (s : AppState) : AppState :=
  match post "/workspaces" s.ws r with
  | Except.ok v =>
      { s with status := "Workspace created: " ++ v.id
               campaign := { s.campaign with workspace_id := v.id } }
  | Except.error e => { s with status := e }

/-- `generateEmail` (lines 142-151), net state once the awaited POST of the
generator form resolves with response `r`: on success the preview is
replaced and the status set; on failure only the status is set to the
thrown message; either way the loading flag ends false. -/
def generateEmail (r : Response GenPreview) (s : AppState) : AppState :=
  match post "/generate" s.gen r with
  | Except.ok v => { s with preview := some v, status := "Generated!", loadingGen := false }
  | Except.error e => { s with status := e, loadingGen := false }

/-- The `properties` object sent with an analytics event. -/
structure EventProperties where
  page : String
  deriving DecidableEq, Repr

/-- Body of the `/events` POST: exactly the fields `{ type, properties }`. -/
structure EventBody where
  type : String
  properties : EventProperties
  deriving DecidableEq, Repr

/-- A POST request about to be issued: target path and JSON body. -/
structure PostRequest (β : Type) where
  path : String
  body : β
  deriving DecidableEq, Repr

/-- The request `trackEvent(type)` issues (lines 162-167):
`post('/events', { type, properties: { page: 'dashboard' } })`. -/
def trackEventRequest (type : String) : PostRequest EventBody :=
  { path := "/events", body := { type := type, properties := { page := "dashboard" } } }

/-- The character list `needle` occurs contiguously inside `hay`. -/
def containsSeg (hay needle : List Char) : Prop :=
  ∃ p q : List Char, hay = p ++ needle ++ q

/-- Executable check that `needle` occurs contiguously inside `hay`. -/
def containsSegB (hay needle : List Char) : Bool :=
  (List.range (hay.length + 1)).any fun i => ((hay.drop i).take needle.length) == needle

/-- The string `s` contains the text `t`. -/
def strContains (s t : String) : Prop := containsSeg s.data t.data

/-- Filtering the enumeration of `l` (indices starting at `k`) by "index
differs from `idx`" keeps everything when `idx` lies outside the index range. -/
lemma filter_enumFrom_ne_eq_self {α : Type} (l : List α) : ∀ (k : Nat) (idx : Int),
    (idx < (k:Int) ∨ (k:Int) + l.length ≤ idx) →
    ((List.enumFrom k l).filter (fun p => ((p.1:Int) != idx))).map Prod.snd = l := by
  induction l with
  | nil => intro k idx _; simp
  | cons a t ih =>
    intro k idx h
    have hk : (((k:Nat):Int) != idx) = true := by
      simp only [bne_iff_ne, ne_eq]
      intro he
      simp only [List.length_cons] at h
      rcases h with h | h
      · omega
      · push_cast at h; omega
    simp only [List.enumFrom, List.filter_cons, hk, if_true, List.map_cons]
    rw [ih (k+1) idx]
    simp only [List.length_cons] at h
    rcases h with h | h
    · left; push_cast; omega
    · right; push_cast at h ⊢; omega

/-- Filtering the enumeration of `l` (indices starting at `k`) by "index
differs from `k + n`" drops exactly the element at position `n`. -/
lemma filter_enumFrom_ne_eq_eraseIdx {α : Type} (l : List α) : ∀ (k n : Nat),
    ((List.enumFrom k l).filter (fun p => ((p.1:Int) != (((k+n:Nat)):Int)))).map Prod.snd
      = l.take n ++ l.drop (n+1) := by
  induction l with
  | nil => intro k n; simp
  | cons a t ih =>
    intro k n
    cases n with
    | zero =>
      have hk : (((k:Nat):Int) != (((k+0:Nat)):Int)) = false := by simp
      simp only [List.enumFrom, List.filter_cons, hk, if_false, Bool.false_eq_true]
      simp only [List.take_zero, List.drop_succ_cons, List.drop_zero, List.nil_append]
      exact filter_enumFrom_ne_eq_self t (k+1) ((k+0:Nat):Int) (Or.inl (by push_cast; omega))
    | succ m =>
      have hk : (((k:Nat):Int) != (((k+(m+1):Nat)):Int)) = true := by
        simp only [bne_iff_ne, ne_eq]; push_cast; omega
      simp only [List.enumFrom, List.filter_cons, hk, if_true, List.map_cons,
        List.take_succ_cons, List.drop_succ_cons, List.cons_append]
      have h2 := ih (k+1) m
      rw [show (k + (m+1)) = ((k+1)+m) by omega]
      rw [h2]

/-- A successful occurrence check implies the executable check succeeds. -/
lemma containsSegB_of_containsSeg (hay needle : List Char) (h : containsSeg hay needle) :
    containsSegB hay needle = true := by
  obtain ⟨p, q, rfl⟩ := h
  apply List.any_eq_true.mpr
  refine ⟨p.length, List.mem_range.mpr ?_, ?_⟩
  · simp only [List.length_append]
    omega
  · rw [List.append_assoc, List.drop_left, List.take_left]
    exact beq_self_eq_true needle

/-- C1 (counterexample): on a campaign whose sequence is empty, `addStep`
appends a step with `day_offset = 2`, not `0` as the claim states for "the
first step of the sequence": `(c.sequence.at(-1)?.day_offset ?? 0) + 2`
evaluates to `0 + 2` when the sequence is empty. -/
theorem addStep_empty_day_offset_counterexample :
    ¬ ((addStep { name := "", workspace_id := "", sequence := [] }).sequence.getLast? =
        some { day_offset := 0, subject := "", body := "" }) := by
  decide

/-- C1 (amended): `addStep` appends exactly one new step at the end, with
empty subject and body, whose `day_offset` is two greater than the previous
last step's `day_offset`, or `2` when the sequence was empty. -/
theorem addStep_appends_offset_plus_two (c : Campaign) :
    (addStep c).sequence.length = c.sequence.length + 1 ∧
    (addStep c).sequence.take c.sequence.length = c.sequence ∧
    (addStep c).sequence.getLast? =
      some { day_offset :=
               (match c.sequence.getLast? with
                | some s => s.day_offset + 2
                | none => 2),
             subject := "", body := "" } := by
  refine ⟨by simp [addStep], ?_, ?_⟩
  · rw [addStep]
    exact List.take_left c.sequence _
  · rw [addStep]
    cases hl : c.sequence.getLast? with
    | none => simp [hl]
    | some s => simp [hl]

/-- C2: for a valid index `n`, `removeStep n` removes exactly the step at
position `n`: the result is the steps before `n` followed by the steps
after `n` (one step shorter, order preserved), and the other campaign
fields are untouched. -/
theorem removeStep_valid (c : Campaign) (n : Nat) (h : n < c.sequence.length) :
    (removeStep (n:Int) c).sequence = c.sequence.take n ++ c.sequence.drop (n+1) ∧
    (removeStep (n:Int) c).sequence.length = c.sequence.length - 1 ∧
    (removeStep (n:Int) c).name = c.name ∧
    (removeStep (n:Int) c).workspace_id = c.workspace_id := by
  have key := filter_enumFrom_ne_eq_eraseIdx c.sequence 0 n
  simp only [Nat.zero_add] at key
  have hseq : (removeStep (n:Int) c).sequence = c.sequence.take n ++ c.sequence.drop (n+1) := by
    rw [removeStep]
    simpa [List.enum] using key
  refine ⟨hseq, ?_, rfl, rfl⟩
  rw [hseq]
  simp only [List.length_append, List.length_take, List.length_drop]
  omega

/-- C2 witness: removing index 1 from a three-step sequence. -/
theorem removeStep_valid_witness :
    (1 < (Campaign.mk "n" "w" [⟨0, "a", ""⟩, ⟨2, "b", ""⟩, ⟨4, "c", ""⟩]).sequence.length) ∧
    (removeStep ((1:Nat):Int) (Campaign.mk "n" "w" [⟨0, "a", ""⟩, ⟨2, "b", ""⟩, ⟨4, "c", ""⟩])).sequence =
      [⟨0, "a", ""⟩, ⟨4, "c", ""⟩] := by
  refine ⟨by decide, ?_⟩
  have h := removeStep_valid (Campaign.mk "n" "w" [⟨0, "a", ""⟩, ⟨2, "b", ""⟩, ⟨4, "c", ""⟩]) 1
    (by decide)
  exact h.1

/-- C8: on any campaign whose sequence is empty, `addStep` produces the
one-step sequence with `day_offset = 2` and empty subject and body. -/
theorem addStep_on_empty_sequence (c : Campaign) (h : c.sequence = []) :
    (addStep c).sequence = [{ day_offset := 2, subject := "", body := "" }] := by
  simp [addStep, h]

/-- C8 witness: the empty-sequence campaign. -/
theorem addStep_on_empty_sequence_witness :
    (addStep { name := "", workspace_id := "", sequence := [] }).sequence =
      [{ day_offset := 2, subject := "", body := "" }] :=
  addStep_on_empty_sequence { name := "", workspace_id := "", sequence := [] } rfl

/-- C9: an out-of-range index (negative, or at least the length) makes
`removeStep` a no-op: the whole campaign state is unchanged. -/
theorem removeStep_out_of_range (c : Campaign) (idx : Int)
    (h : idx < 0 ∨ (c.sequence.length : Int) ≤ idx) :
    removeStep idx c = c := by
  have key := filter_enumFrom_ne_eq_self c.sequence 0 idx (by
    rcases h with h | h
    · left; exact_mod_cast h
    · right; simpa using h)
  cases c with
  | mk nm wid seq =>
    simp only at key
    simp only [removeStep, List.enum]
    rw [key]

/-- C9 witness: removing index 5 (and index -3) from the one-step initial
campaign changes nothing. -/
theorem removeStep_out_of_range_witness :
    removeStep (5:Int) initialCampaign = initialCampaign ∧
    ((5:Int) < 0 ∨ (initialCampaign.sequence.length : Int) ≤ 5) := by
  refine ⟨?_, by decide⟩
  exact removeStep_out_of_range initialCampaign 5 (by decide)

/-- C3: when the GET behind `loadCampaigns` or the POST behind
`submitWorkspace` completes with a non-2xx status, the resulting status
message contains the numeric HTTP status code of that response. -/
theorem error_status_contains_code (s : AppState)
    (rg : Response (List Campaign)) (rp : Response CreatedResp)
    (hg : isOk rg.status = false) (hp : isOk rp.status = false) :
    strContains (loadCampaigns rg s).status (toString rg.status) ∧
    strContains (submitWorkspace rp s).status (toString rp.status) := by
  constructor
  · simp only [loadCampaigns, get, hg, Bool.false_eq_true, if_false]
    refine ⟨"GET /campaigns failed: ".data, [], ?_⟩
    simp [String.data_append]
  · simp only [submitWorkspace, post, hp, Bool.false_eq_true, if_false]
    refine ⟨"POST /workspaces failed: ".data,
      ((" " : String) ++ rp.text).data, ?_⟩
    simp [String.data_append]

/-- C3 witness: a 404 on the campaigns GET and a 500 on the workspace POST. -/
theorem error_status_contains_code_witness :
    strContains (loadCampaigns (Response.mk 404 "nf" ([] : List Campaign)) initialState).status
      (toString 404) ∧
    strContains (submitWorkspace (Response.mk 500 "boom" (CreatedResp.mk "")) initialState).status
      (toString 500) :=
  error_status_contains_code initialState (Response.mk 404 "nf" ([] : List Campaign))
    (Response.mk 500 "boom" (CreatedResp.mk "")) (by decide) (by decide)

/-- C4: a successful POST `/workspaces` response carrying an `id` makes
`submitWorkspace` store that id in the campaign's `workspace_id` (and
report it in the status). -/
theorem submitWorkspace_sets_workspace_id (s : AppState) (r : Response CreatedResp)
    (h : isOk r.status = true) :
    (submitWorkspace r s).campaign.workspace_id = r.payload.id ∧
    (submitWorkspace r s).status = "Workspace created: " ++ r.payload.id := by
  simp [submitWorkspace, post, h]

/-- C4 witness: a 200 response with id `ws_1`. -/
theorem submitWorkspace_sets_workspace_id_witness :
    (submitWorkspace (Response.mk 200 "" (CreatedResp.mk "ws_1")) initialState).campaign.workspace_id
      = "ws_1" ∧
    (submitWorkspace (Response.mk 200 "" (CreatedResp.mk "ws_1")) initialState).status
      = "Workspace created: " ++ "ws_1" :=
  submitWorkspace_sets_workspace_id initialState (Response.mk 200 "" (CreatedResp.mk "ws_1"))
    (by decide)

/-- C5 (counterexample): a failed GET's thrown message does not include the
response body text: with status 500 and body `boom`, `get` throws
`GET /campaigns failed: 500`, which does not contain `boom`. -/
theorem get_error_omits_body_counterexample :
    get "/campaigns" (Response.mk 500 "boom" ([] : List Campaign)) =
      Except.error "GET /campaigns failed: 500" ∧
    ¬ strContains "GET /campaigns failed: 500" "boom" := by
  refine ⟨rfl, ?_⟩
  intro h
  exact absurd (containsSegB_of_containsSeg _ _ h) (by decide)

/-- C5 (amended): on a non-2xx response both wrapper calls throw; the POST
message carries the response body text (and so contains it), while the GET
message is exactly `` `GET ${path} failed: ${status}` ``, without the body. -/
theorem wrapper_error_messages {α β : Type} (pathG pathP : String) (body : β)
    (rg : Response α) (rp : Response α)
    (hg : isOk rg.status = false) (hp : isOk rp.status = false) :
    get pathG rg = Except.error ("GET " ++ pathG ++ " failed: " ++ toString rg.status) ∧
    post pathP body rp =
      Except.error ("POST " ++ pathP ++ " failed: " ++ toString rp.status ++ " " ++ rp.text) ∧
    strContains ("POST " ++ pathP ++ " failed: " ++ toString rp.status ++ " " ++ rp.text)
      rp.text := by
  refine ⟨by simp [get, hg], by simp [post, hp], ?_⟩
  refine ⟨("POST " ++ pathP ++ " failed: " ++ toString rp.status ++ " ").data, [], ?_⟩
  simp [String.data_append]

/-- C5 witness: a 404 GET and a 500 POST whose body is `boom`. -/
theorem wrapper_error_messages_witness :
    get "/campaigns" (Response.mk 404 "nf" ([] : List Campaign)) =
      Except.error ("GET " ++ "/campaigns" ++ " failed: " ++ toString 404) ∧
    post "/workspaces" (Workspace.mk "" "") (Response.mk 500 "boom" ([] : List Campaign)) =
      Except.error ("POST " ++ "/workspaces" ++ " failed: " ++ toString 500 ++ " " ++ "boom") ∧
    strContains ("POST " ++ "/workspaces" ++ " failed: " ++ toString 500 ++ " " ++ "boom")
      "boom" :=
  wrapper_error_messages "/campaigns" "/workspaces" (Workspace.mk "" "")
    (Response.mk 404 "nf" ([] : List Campaign)) (Response.mk 500 "boom" ([] : List Campaign))
    (by decide) (by decide)

/-- C6 (counterexample): with the environment value set to the empty
string, the base URL is the localhost default, not the configured value:
JavaScript `||` treats the empty string as falsy. -/
theorem baseUrl_empty_env_counterexample :
    baseUrl (some "") = "http://localhost:8000" ∧ ¬ (baseUrl (some "") = "") := by
  decide

/-- C6 (amended): the base URL equals `VITE_BACKEND_URL` when that value is
set and non-empty, and is `http://localhost:8000` when it is unset or set
to the empty string. -/
theorem baseUrl_spec (v : String) (h : v ≠ "") :
    baseUrl (some v) = v ∧ baseUrl none = "http://localhost:8000" ∧
    baseUrl (some "") = "http://localhost:8000" := by
  refine ⟨?_, rfl, rfl⟩
  simp [baseUrl, jsOr, h]

/-- C6 witness: a configured non-empty backend URL. -/
theorem baseUrl_spec_witness :
    baseUrl (some "https://api.example.com") = "https://api.example.com" ∧
    baseUrl none = "http://localhost:8000" ∧
    baseUrl (some "") = "http://localhost:8000" :=
  baseUrl_spec "https://api.example.com" (by decide)

/-- C7: `trackEvent(type)` issues a POST to `/events` whose body has
exactly the fields `type` (the given string) and `properties` (the
`{ page: 'dashboard' }` object). -/
theorem trackEvent_request_shape (type : String) :
    (trackEventRequest type).path = "/events" ∧
    (trackEventRequest type).body =
      EventBody.mk type (EventProperties.mk "dashboard") :=
  ⟨rfl, rfl⟩

/-- C10: when the POST behind `generateEmail` fails, the preview keeps its
previous value and the net state change is the status message alone (the
loading flag, raised at the start of the handler, is back to false). -/
theorem generateEmail_error_keeps_preview (s : AppState) (r : Response GenPreview)
    (hok : isOk r.status = false) (hl : s.loadingGen = false) :
    (generateEmail r s).preview = s.preview ∧
    generateEmail r s =
      { s with status := "POST " ++ "/generate" ++ " failed: " ++ toString r.status
                           ++ " " ++ r.text } := by
  cases s with
  | mk st w pr g pv lg cp cps lc =>
    simp only at hl
    subst hl
    constructor
    · simp [generateEmail, post, hok]
    · simp [generateEmail, post, hok]

/-- C10 witness: a 500 `/generate` response leaves the initial preview
(`none`) in place and only rewrites the status. -/
theorem generateEmail_error_keeps_preview_witness :
    (generateEmail (Response.mk 500 "boom" (GenPreview.mk "" "")) initialState).preview =
      initialState.preview ∧
    generateEmail (Response.mk 500 "boom" (GenPreview.mk "" "")) initialState =
      { initialState with
          status := "POST " ++ "/generate" ++ " failed: " ++ toString 500 ++ " " ++ "boom" } :=
  generateEmail_error_keeps_preview initialState (Response.mk 500 "boom" (GenPreview.mk "" ""))
    (by decide) rfl

end ColdOutreach
